import Mathlib

/-!
# Verification of the VProxySuite worker core

Shallow embedding of the worker core of the VProxySuite repository:

* `services/worker/src/core/parsers.py`  — hostname/port validation and the
  VMESS descriptor decoder,
* `services/worker/src/core/runner.py`   — the task-execution orchestrator
  `execute_request_async`,
* `services/worker/src/testsuite/common.py` — the sandboxed command runner
  `run_cmd`.

Python strings are modelled by Lean `String`; the handful of Python `str`
operations the code uses (`strip`, `lower`, `replace`, `split`,
`startswith`) are given explicit executable models over `List Char`, so that
everything reduces in the kernel.  Python byte strings are modelled by
`List Nat`.  A Python exception escaping a function is modelled by
`Except PyError` / `Except String` with the `.error` constructor.

External libraries are kept at the component boundary: the `idna.encode`
codec (used by `_validate_hostname`) and the `yarl` URL parser (used only by
`parse_vless`, whose internals no theorem below touches) enter as function
parameters, as does the registry contents of `plugins/base.py` (the concrete
plugin bodies live outside the verified core).
-/

namespace VProxySuite

/-! ## Python string-operation models -/

/-- Python whitespace characters recognised by `str.strip()` (ASCII range;
the code never feeds non-ASCII whitespace to `strip`). -/
def isPyWs (c : Char) : Bool :=
  c = ' ' || c = '\t' || c = '\n' || c = '\r' || c = '\x0b' || c = '\x0c'

/-- `str.strip()`: drop leading and trailing whitespace. -/
def pyStrip (s : String) : String :=
  String.mk (((s.data.dropWhile isPyWs).reverse.dropWhile isPyWs).reverse)

/-- `str.lower()` (ASCII case mapping, which is all the code relies on). -/
def lowerStr (s : String) : String :=
  String.mk (s.data.map Char.toLower)

/-- Does `pat` occur at the head of `cs`?  (Model of `str.startswith`.) -/
def leadsWith : List Char → List Char → Bool
  | [], _ => true
  | _ :: _, [] => false
  | p :: ps, c :: cs => p = c && leadsWith ps cs

/-- Scanning loop of `str.replace`: each step consumes at least one input
character, so `fuel` (initialised to the input length) never runs out; the
fuel argument only makes the recursion structural. -/
def replaceAllAux (pat rep : List Char) : Nat → List Char → List Char
  | _, [] => []
  | 0, l => l
  | fuel + 1, c :: cs =>
    if pat ≠ [] ∧ leadsWith pat (c :: cs) then
      rep ++ replaceAllAux pat rep fuel ((c :: cs).drop pat.length)
    else
      c :: replaceAllAux pat rep fuel cs

/-- `str.replace(pat, rep)`: leftmost, non-overlapping replacement of every
occurrence.  (The code only uses non-empty patterns.) -/
def replaceAll (pat rep cs : List Char) : List Char :=
  replaceAllAux pat rep cs.length cs

/-- `str.split('.')`-style split on a single separator character. -/
def splitOnChar (sep : Char) : List Char → List (List Char)
  | [] => [[]]
  | c :: cs =>
    let r := splitOnChar sep cs
    if c = sep then [] :: r
    else
      match r with
      | g :: gs => (c :: g) :: gs
      | [] => [[c]]

/-- Decimal digit test (`\d` in the source regexes; Python `int()` on the
ASCII strings this code produces). -/
def isAsciiDigit (c : Char) : Bool := '0' ≤ c && c ≤ '9'

/-- Hexadecimal digit, `[0-9a-fA-F]`. -/
def isHexChar (c : Char) : Bool :=
  isAsciiDigit c || ('a' ≤ c && c ≤ 'f') || ('A' ≤ c && c ≤ 'F')

/-- Tail of a Python integer literal after its first digit: digits with
single underscores allowed between digits (`\d(_?\d)*`). -/
def pyDigitsTail : List Char → Bool
  | [] => true
  | '_' :: c :: rest => isAsciiDigit c && pyDigitsTail rest
  | c :: rest => isAsciiDigit c && pyDigitsTail rest

/-- A non-empty Python digit run (underscore grouping allowed). -/
def pyDigitsOk : List Char → Bool
  | [] => false
  | c :: rest => isAsciiDigit c && pyDigitsTail rest

/-- Numeric value of an (underscore-free) digit list. -/
def digitsToNat (cs : List Char) : Nat :=
  cs.foldl (fun a c => a * 10 + (c.toNat - '0'.toNat)) 0

/-- Model of Python `int(s)` on the ASCII strings arising here: optional
surrounding whitespace, optional sign, then a digit run with underscore
grouping.  Returns `none` when `int()` would raise `ValueError`.
(Non-ASCII numerals accepted by CPython are outside the modelled input
space.) -/
def pyIntOfString (s : String) : Option Int :=
  let cs := (pyStrip s).data
  let num : List Char → Option Int := fun ds =>
    if pyDigitsOk ds then some ((digitsToNat (ds.filter (fun c => c ≠ '_')) : Nat) : Int)
    else none
  match cs with
  | '+' :: rest => num rest
  | '-' :: rest => (num rest).map (fun n => -n)
  | _ => num cs

/-! ## JSON values (the output of `json.loads` on a VMESS payload)

JSON numbers are modelled as integers; no claim involves fractional
numbers. -/

inductive JValue where
  | null : JValue
  | bool : Bool → JValue
  | int : Int → JValue
  | str : String → JValue
  | arr : List JValue → JValue
  | obj : List (String × JValue) → JValue

/-- Python truthiness of a JSON value (`if v:`). -/
def jFalsy : JValue → Bool
  | .null => true
  | .bool b => !b
  | .int n => n = 0
  | .str s => s.data.isEmpty
  | .arr xs => xs.isEmpty
  | .obj kvs => kvs.isEmpty

/-- `dict.get`: last binding wins, as in a dict built by `json.loads`. -/
def jGet (kvs : List (String × JValue)) (k : String) : Option JValue :=
  kvs.foldl (fun acc p => if p.1 = k then some p.2 else acc) none

/-- Python type name of a JSON value, as it appears in `AttributeError`
messages. -/
def jTypeName : JValue → String
  | .null => "NoneType"
  | .bool _ => "bool"
  | .int _ => "int"
  | .str _ => "str"
  | .arr _ => "list"
  | .obj _ => "dict"

mutual
/-- Python `repr` of a JSON value (string escaping simplified to plain
single quotes; only ever reached through `str()` of a container, whose
result never parses as a UUID, hostname, or integer anyway). -/
def pyRepr : JValue → String
  | .null => "None"
  | .bool true => "True"
  | .bool false => "False"
  | .int n => toString n
  | .str s => "\x27" ++ s ++ "\x27"
  | .arr xs => "[" ++ pyReprList xs ++ "]"
  | .obj kvs => "\x7b" ++ pyReprObj kvs ++ "\x7d"

def pyReprList : List JValue → String
  | [] => ""
  | [x] => pyRepr x
  | x :: y :: rest => pyRepr x ++ ", " ++ pyReprList (y :: rest)

def pyReprObj : List (String × JValue) → String
  | [] => ""
  | [(k, v)] => "\x27" ++ k ++ "\x27: " ++ pyRepr v
  | (k, v) :: p :: rest => "\x27" ++ k ++ "\x27: " ++ pyRepr v ++ ", " ++ pyReprObj (p :: rest)
end

/-- Python `str()` of a JSON value (differs from `repr` only on strings). -/
def pyStr : JValue → String
  | .str s => s
  | v => pyRepr v

/-! ## UUIDs

Model of CPython `uuid.UUID(hex)` on a string argument:
`hex.replace('urn:', '').replace('uuid:', '').strip('{}').replace('-', '')`
must leave exactly 32 hex digits.  A UUID value is represented by its
normalised 32-character lowercase hex string.  (The `int(·, 16)` quirks for
strings that embed a `0x` prefix or underscores inside the 32 characters are
not modelled; no such input occurs below.) -/

def isBraceChar (c : Char) : Bool := c = '{' || c = '}'

/-- `uuid.UUID(s)`; `none` models the raised `ValueError`. -/
def uuidParse (s : String) : Option String :=
  let cs := replaceAll ("uuid:".data) [] (replaceAll ("urn:".data) [] s.data)
  let cs := ((cs.dropWhile isBraceChar).reverse.dropWhile isBraceChar).reverse
  let cs := cs.filter (fun c => c ≠ '-')
  if cs.length = 32 ∧ cs.all isHexChar then some (String.mk (cs.map Char.toLower))
  else none

/-- `str(uuid)`: the canonical dashed 8-4-4-4-12 rendering of a normalised
32-hex-digit UUID. -/
def uuidDashed (hex32 : String) : String :=
  let cs := hex32.data
  String.mk (cs.take 8 ++ '-' :: ((cs.drop 8).take 4) ++ '-' :: ((cs.drop 12).take 4)
    ++ '-' :: ((cs.drop 16).take 4) ++ '-' :: cs.drop 20)

/-! ## Hostname and port validation (`parsers.py` lines 67–95) -/

/-- One octet of `_IPV4_RE`: the regex alternative
`25[0-5]|2[0-4]\d|1?\d?\d` matched against a maximal digit run. -/
def ipv4Octet : List Char → Bool
  | [a] => isAsciiDigit a
  | [a, b] => isAsciiDigit a && isAsciiDigit b
  | [a, b, c] =>
      (a = '1' && isAsciiDigit b && isAsciiDigit c) ||
      (a = '2' && ('0' ≤ b && b ≤ '4') && isAsciiDigit c) ||
      (a = '2' && b = '5' && ('0' ≤ c && c ≤ '5'))
  | _ => false

/-- `_IPV4_RE`: four octets separated by dots.  Splitting on `'.'` is
equivalent to the anchored regex because an octet cannot contain a dot. -/
def ipv4Re (s : String) : Bool :=
  match splitOnChar '.' s.data with
  | [a, b, c, d] => ipv4Octet a && ipv4Octet b && ipv4Octet c && ipv4Octet d
  | _ => false

/-- The character class `[0-9a-fA-F:]` of `_IPV6_RE`. -/
def isIpv6Char (c : Char) : Bool := isHexChar c || c = ':'

/-- `_IPV6_RE = ^\[?[0-9a-fA-F:]+\]?$`.  Since `[` and `]` are not in the
character class, the regex is equivalent to stripping at most one leading
`[` and one trailing `]` and requiring a non-empty hex/colon remainder. -/
def ipv6Re (s : String) : Bool :=
  let cs := s.data
  let cs := if cs.head? = some '[' then cs.tail else cs
  let cs := if cs.getLast? = some ']' then cs.dropLast else cs
  !cs.isEmpty && cs.all isIpv6Char

/-- `_validate_hostname`.  The `idna.encode(host, uts46=True)` codec is an
external library and enters as the parameter `idnaEncode` (`none` models a
raised `idna` error).  The `_DOMAIN_RE` block at lines 82–84 of the source
is a no-op (`pass`) and is omitted. -/
def validate_hostname (idnaEncode : String → Option String) (host : String) :
    Except String String :=
  let host := pyStrip host
  if ipv4Re host || ipv6Re host then .ok host
  else
    match idnaEncode host with
    | some _ => .ok host
    | none => .error ("invalid hostname: " ++ host)

/-- `_validate_port`: `int(str(port).strip())`, then the range check
`1 <= p <= 65535`. -/
def validate_port (port : JValue) : Except String Int :=
  match pyIntOfString (pyStrip (pyStr port)) with
  | none => .error "port must be int"
  | some p => if 1 ≤ p ∧ p ≤ 65535 then .ok p else .error "port out of range"

/-! ## VMESS descriptor decoding (`parsers.py` lines 39–52 and 160–221)

The base64 + `json.loads` front end (source lines 169–176, Python standard
library) turns the wire payload into a JSON value; the decoder below models
everything `parse_vmess` does with that decoded value (source lines
178–221).  A raised exception is `.error`. -/

/-- `ParsedVMESS` (the Pydantic model): `id` is the normalised UUID hex,
optional attributes are `Option`s, `raw` keeps the whole decoded object. -/
structure ParsedVMESS where
  id : String
  host : String
  port : Int
  aid : Option Int
  net : Option String
  type_field : Option String
  tls : Option String
  sni : Option String
  host_header : Option String
  path : Option String
  name : Option String
  raw : List (String × JValue)

/-- `ParseResult` specialised to VMESS: descriptor plus advisory warnings. -/
structure VmessParseResult where
  config : ParsedVMESS
  warnings : List String

/-- The expression pattern `(data.get(k) or "").strip() or None` used for the
optional string fields (source lines 194–200).  A missing or falsy value
gives `""`, hence `None`; a truthy non-string value raises
`AttributeError` (modelled as `.error`); a truthy string is stripped and
`""` collapses to `None`. -/
def strFieldRes (kvs : List (String × JValue)) (k : String) :
    Except String (Option String) :=
  match jGet kvs k with
  | none => .ok none
  | some v =>
    if jFalsy v then .ok none
    else
      match v with
      | .str s =>
        let t := pyStrip s
        .ok (if t = "" then none else some t)
      | v => .error ("\x27" ++ jTypeName v ++ "\x27 object has no attribute \x27strip\x27")

/-- The `aid` block (source lines 187–192): optional integer, a non-numeric
value downgrades to a warning.  Returns the parsed `aid` and the warnings it
contributed. -/
def aidField (kvs : List (String × JValue)) : Option Int × List String :=
  match jGet kvs "aid" with
  | none => (none, [])
  | some v =>
    let s := pyStrip (pyStr v)
    if s = "" then (none, [])
    else
      match pyIntOfString s with
      | some n => (some n, [])
      | none => (none, ["vmess \x27aid\x27 is not numeric; ignored."])

/-- `parse_vmess` applied to the decoded JSON payload (source lines
178–221).  `idnaEncode` is the external IDNA codec used by
`_validate_hostname`.  A non-object payload raises `AttributeError` at the
first `data.get` (modelled below as the corresponding `.error`). -/
def parse_vmess_decoded (idnaEncode : String → Option String) (data : JValue) :
    Except String VmessParseResult :=
  match data with
  | .obj kvs =>
    match uuidParse (pyStrip (pyStr ((jGet kvs "id").getD (.str "")))) with
    | none => .error "invalid vmess uuid"
    | some uid =>
      match validate_hostname idnaEncode
          (pyStrip (pyStr ((jGet kvs "add").getD (.str "")))) with
      | .error e => .error e
      | .ok host =>
        match validate_port ((jGet kvs "port").getD (.int 0)) with
        | .error e => .error e
        | .ok port =>
          let aidPair := aidField kvs
          match strFieldRes kvs "net" with
          | .error e => .error e
          | .ok net =>
            match strFieldRes kvs "type" with
            | .error e => .error e
            | .ok type_field =>
              match strFieldRes kvs "tls" with
              | .error e => .error e
              | .ok tls =>
                match strFieldRes kvs "sni" with
                | .error e => .error e
                | .ok sni =>
                  match strFieldRes kvs "host" with
                  | .error e => .error e
                  | .ok host_header =>
                    match strFieldRes kvs "path" with
                    | .error e => .error e
                    | .ok path =>
                      match strFieldRes kvs "ps" with
                      | .error e => .error e
                      | .ok name =>
                        let model : ParsedVMESS :=
                          { id := uid, host := host, port := port,
                            aid := aidPair.1, net := net,
                            type_field := type_field, tls := tls, sni := sni,
                            host_header := host_header, path := path,
                            name := name, raw := kvs }
                        let warnings := aidPair.2
                          ++ (if lowerStr (tls.getD "") ∈ ["", "none", "insecure"]
                              then ["VMESS without TLS; traffic may be observable."]
                              else [])
                          ++ (if net = some "ws" ∧ path = none
                              then ["WebSocket selected but path is empty."]
                              else [])
                        .ok { config := model, warnings := warnings }
  | v => .error ("\x27" ++ jTypeName v ++ "\x27 object has no attribute \x27get\x27")

/-! ## Process-wide settings (`config/settings.py`)

Only the fields the worker core reads. -/

structure Settings where
  ENABLE_SECURITY_ADVANCED : Bool
  DEFAULT_TASK_TIMEOUT_SEC : Nat
  DEFAULT_SUBPROCESS_TIMEOUT_SEC : Nat
  DEFAULT_SUBPROCESS_MAX_OUTPUT_BYTES : Nat
  MAX_PARALLEL_PLUGINS : Nat

/-- The defaults declared in `Settings` (`settings.py` lines 25–34). -/
def defaultSettings : Settings :=
  { ENABLE_SECURITY_ADVANCED := false
    DEFAULT_TASK_TIMEOUT_SEC := 75
    DEFAULT_SUBPROCESS_TIMEOUT_SEC := 30
    DEFAULT_SUBPROCESS_MAX_OUTPUT_BYTES := 1000000
    MAX_PARALLEL_PLUGINS := 4 }

/-! ## Exceptions escaping a function -/

inductive PyError where
  | valueError : String → PyError
  | nameError : String → PyError

/-! ## Sandboxed command runner (`testsuite/common.py` lines 18–88)

The child process is the environment: `ChildBehavior` records whether it
completes (with the captured streams and exit status) within the wall-clock
budget or the `asyncio.wait_for` times out.  `argv` tokenisation, `cwd`,
`env`, and the best-effort `setrlimit` calls (lines 26–44, applied inside
the child and irrelevant to the returned value) are not observable in
`CmdResult` and are omitted.  Byte strings are `List Nat`. -/

structure CmdResult where
  exit_code : Int
  stdout : List Nat
  stderr : List Nat
  timeout : Bool

inductive ChildBehavior where
  /-- `proc.communicate()` finishes within the timeout, yielding the two
  captured streams; `proc.returncode` is then the child's exit status. -/
  | completes : List Nat → List Nat → Int → ChildBehavior
  /-- `asyncio.wait_for` raises `asyncio.TimeoutError`. -/
  | timesOut : ChildBehavior

/-- ASCII bytes of a string literal (`b"timeout"` etc.). -/
def asciiBytes (s : String) : List Nat := s.data.map Char.toNat

/-- `run_cmd` (source lines 47–88).  On normal completion the streams are
truncated independently to `max_output_bytes` and the real exit code is
returned (`proc.returncode or 0` only turns an unset `None` code into `0`;
after `communicate` the code is always set).  On timeout the source executes
`contextlib.suppress`, but `common.py` never imports `contextlib`, so the
handler raises `NameError: name 'contextlib' is not defined` instead of
returning the `CmdResult(137, b"", b"timeout", True)` on line 88. -/
def runCmd (settings : Settings) (child : ChildBehavior)
    (timeout_sec : Option Nat) (max_output_bytes : Option Nat) :
    Except PyError CmdResult :=
  let _timeout_sec := timeout_sec.getD settings.DEFAULT_SUBPROCESS_TIMEOUT_SEC
  let maxOut := max_output_bytes.getD settings.DEFAULT_SUBPROCESS_MAX_OUTPUT_BYTES
  match child with
  | .completes stdout stderr rc =>
    let stdout := if stdout.length > maxOut then stdout.take maxOut else stdout
    let stderr := if stderr.length > maxOut then stderr.take maxOut else stderr
    .ok { exit_code := rc, stdout := stdout, stderr := stderr, timeout := false }
  | .timesOut => .error (.nameError "name \x27contextlib\x27 is not defined")

/-- The unreachable intended timeout result of `run_cmd` line 88. -/
def timeoutCmdResult : CmdResult :=
  { exit_code := 137, stdout := [], stderr := asciiBytes "timeout", timeout := true }

/-! ## Plugin contract (`plugins/base.py`) -/

def KIND_PERFORMANCE : String := "performance"
def KIND_STABILITY : String := "stability"
def KIND_COMPLIANCE : String := "compliance"
def KIND_SECURITY_BASIC : String := "security_basic"
def KIND_SECURITY_ADV : String := "security_adv"

/-- The auxiliary logging attributes placed in the context
(`runner.py` line 133). -/
structure LogExtra where
  telegram_id : Int
  username : Option String

/-- `PluginContext` (`plugins/base.py` lines 21–29).  The normalised config
is the Pydantic `model_dump` of the parsed descriptor; its shape never
matters to the orchestrator, so it is a type parameter `Cfg`. -/
structure PluginContext (Cfg : Type) where
  request_id : String
  config : Cfg
  log_extra : LogExtra
  timeout_sec : Nat

/-- `PluginResult` (`plugins/base.py` lines 32–38). -/
structure PluginResult where
  ok : Bool
  kind : String
  metrics : List (String × JValue)
  warnings : List String
  error : Option String

/-! ## Execution orchestrator (`core/runner.py`) -/

/-- The raw task payload handed to `execute_request_async` by the Celery
bridge: a JSON object whose fields match the `TaskRequest` schema.  A
missing key is `none`.  (Field values of entirely wrong JSON type are
outside the modelled payload space; every claim below concerns present,
absent, or schema-typed values.) -/
structure Payload where
  task_id : Option String
  user_telegram_id : Option Int
  username : Option String
  config_raw : Option String
  tests : Option (List String)
  consent_required : Option Bool
  consent_granted : Option Bool

/-- `TaskRequest` (`runner.py` lines 33–43) after validation.  `task_id` is
the normalised UUID.  Note the source places no sign constraint on
`user_telegram_id` and the only `tests` constraint is `min_length=1`. -/
structure TaskRequest where
  task_id : String
  user_telegram_id : Int
  username : Option String
  config_raw : String
  tests : List String
  consent_required : Bool
  consent_granted : Bool

/-- One entry of the `results` mapping (`runner.py` lines 150–155). -/
structure ResultEntry where
  ok : Bool
  metrics : List (String × JValue)
  warnings : List String
  error : Option String

/-- `TaskResponse` (`runner.py` lines 46–51): the `results` dict is a list
of key/value pairs in insertion order (its keys are always distinct
below). -/
structure TaskResponse where
  task_id : String
  ok : Bool
  results : List (String × ResultEntry)
  warnings : List String
  errors : List String

/-- `TaskRequest.model_validate(payload)`: required fields must be present,
`task_id` must parse as a UUID, `tests` must have at least one element; the
consent booleans default to `False`.  Pydantic reports all failures in one
`ValidationError`; the model reports the first, which is all the orchestrator
ever uses (the message is interpolated into a single error string). -/
def validateTaskRequest (p : Payload) : Except String TaskRequest :=
  match p.task_id with
  | none => .error "task_id: Field required"
  | some s =>
    match uuidParse s with
    | none => .error "task_id: Input should be a valid UUID"
    | some tid =>
      match p.user_telegram_id with
      | none => .error "user_telegram_id: Field required"
      | some uid =>
        match p.config_raw with
        | none => .error "config_raw: Field required"
        | some raw =>
          match p.tests with
          | none => .error "tests: Field required"
          | some ts =>
            if ts.length < 1 then .error "tests: List should have at least 1 item"
            else .ok { task_id := tid, user_telegram_id := uid,
                       username := p.username, config_raw := raw, tests := ts,
                       consent_required := p.consent_required.getD false,
                       consent_granted := p.consent_granted.getD false }

/-- `parse_config` (`parsers.py` lines 227–235).  `parse_vless` (a `yarl`
URL decomposition no claim depends on) and the base64/JSON front end of
`parse_vmess` enter as the delegate parameters; the dispatcher itself —
strip, empty check, lower-cased scheme test, error message — is the source
code. -/
def parse_config (Cfg : Type)
    (parseVless parseVmess : String → Except String (Cfg × List String))
    (raw : String) : Except String (Cfg × List String) :=
  let raw := pyStrip raw
  if raw = "" then .error "empty config"
  else if leadsWith ("vless://".data) (lowerStr raw).data then parseVless raw
  else if leadsWith ("vmess://".data) (lowerStr raw).data then parseVmess raw
  else .error "unsupported config type (expect vless:// or vmess://)"

/-- The dedup step `list(dict.fromkeys(req.tests))` (`runner.py` line 102):
`dict` insertion keeps the first occurrence of each key. -/
def dedupFromKeys (l : List String) : List String :=
  go [] l
where
  go (seen : List String) : List String → List String
    | [] => []
    | x :: xs => if seen.contains x then go seen xs else x :: go (seen ++ [x]) xs

/-- The consent-skip warning text (`runner.py` line 109). -/
def consentSkipMsg : String :=
  "advanced security tests skipped (consent disabled or not granted)."

/-- The consent gate loop (`runner.py` lines 103–111): `security_adv` is
dropped with a warning unless
`ENABLE_SECURITY_ADVANCED and (consent_required and consent_granted)`;
every other kind is appended untouched.  Returns the surviving kinds and
the warnings the gate appended, in traversal order. -/
def consentGate (enableAdv consentRequired consentGranted : Bool) :
    List String → List String × List String
  | [] => ([], [])
  | k :: rest =>
    let r := consentGate enableAdv consentRequired consentGranted rest
    if k == KIND_SECURITY_ADV
        && (!enableAdv || !(consentRequired && consentGranted)) then
      (r.1, consentSkipMsg :: r.2)
    else
      (k :: r.1, r.2)

/-- The unknown-kind filter (`runner.py` lines 113–117): collect the kinds
missing from `available_kinds()`, append one consolidated warning naming
them (Python renders the list with `repr`), and drop them. -/
def filterUnknown (avail : List String) (effective : List String) :
    List String × List String :=
  let unknown := effective.filter (fun k => !(avail.contains k))
  if unknown.isEmpty then (effective, [])
  else
    (effective.filter (fun k => !(unknown.contains k)),
     ["unknown/unsupported test kinds skipped: "
        ++ pyRepr (.arr (unknown.map JValue.str))])

/-- The per-kind entry written into `results_map` (`runner.py`
lines 150–155). -/
def toResultEntry (r : PluginResult) : ResultEntry :=
  { ok := r.ok, metrics := r.metrics, warnings := r.warnings, error := r.error }

/-- The aggregation loop (`runner.py` lines 147–156): builds the `results`
dict in completion order (which `asyncio.gather` fixes to the input order)
and ORs the per-kind success flags. -/
def aggregate (pairs : List (String × PluginResult)) :
    List (String × ResultEntry) × Bool :=
  pairs.foldl
    (fun acc kr => (acc.1 ++ [(kr.1, toResultEntry kr.2)], acc.2 || kr.2.ok))
    ([], false)

/-- The shared per-task `PluginContext` built at `runner.py` lines 130–135:
`request_id` is `str(req.task_id)` (the dashed UUID rendering). -/
def taskContext (Cfg : Type) (settings : Settings) (req : TaskRequest)
    (normalizedCfg : Cfg) : PluginContext Cfg :=
  { request_id := uuidDashed req.task_id, config := normalizedCfg,
    log_extra := { telegram_id := req.user_telegram_id, username := req.username },
    timeout_sec := settings.DEFAULT_TASK_TIMEOUT_SEC }

/-- `execute_request_async` (`runner.py` lines 74–160).

Components at the boundary enter as parameters: the two scheme decoders
behind `parse_config` (see above), the registry contents `avail`
(`available_kinds()`, built by plugin modules outside the core), and
`runSingle`, the per-kind outcome of `_run_single` — which by lines 57–65
always yields a `PluginResult` (timeouts and plugin exceptions are folded
into failed results there).  The semaphore-bounded `asyncio.gather` at
lines 138–144 returns the `(kind, result)` pairs in argument order, modelled
by the `List.map`.

The result is `.error` exactly when an exception escapes: the only such
path is the `ValidationError` handler (lines 81–87), whose
`uuid.UUID(payload.get("task_id", "00000000-…"))` itself raises when the
payload carries a `task_id` that is not a valid UUID string. -/
def execute_request_async (Cfg : Type)
    (parseVless parseVmess : String → Except String (Cfg × List String))
    (runSingle : String → PluginContext Cfg → PluginResult)
    (avail : List String) (settings : Settings) (payload : Payload) :
    Except PyError TaskResponse :=
  match validateTaskRequest payload with
  | .error ve =>
    match uuidParse (payload.task_id.getD "00000000-0000-0000-0000-000000000000") with
    | none => .error (.valueError "badly formed hexadecimal UUID string")
    | some tid =>
      .ok { task_id := tid, ok := false, results := [], warnings := [],
            errors := ["validation error: " ++ ve] }
  | .ok req =>
    match parse_config Cfg parseVless parseVmess req.config_raw with
    | .error e =>
      .ok { task_id := req.task_id, ok := false, results := [], warnings := [],
            errors := ["config parse error: " ++ e] }
    | .ok (normalizedCfg, parseWarnings) =>
      let requested := dedupFromKeys req.tests
      let gate := consentGate settings.ENABLE_SECURITY_ADVANCED
        req.consent_required req.consent_granted requested
      let unk := filterUnknown avail gate.1
      let effective := unk.1
      let warnings := parseWarnings ++ gate.2 ++ unk.2
      if effective.isEmpty then
        .ok { task_id := req.task_id, ok := false, results := [],
              warnings := warnings, errors := ["no effective tests to run"] }
      else
        let ctx := taskContext Cfg settings req normalizedCfg
        let pairs := effective.map (fun k => (k, runSingle k ctx))
        let agg := aggregate pairs
        .ok { task_id := req.task_id, ok := agg.2, results := agg.1,
              warnings := warnings, errors := [] }

/-! ## Specification-side characterisation of the dedup step -/

/-- The spec's wording of the dedup step, as a second definition to compare
with `dedupFromKeys`: "keeps exactly the first occurrence of each kind in
its original relative order" — keep the head, drop every later duplicate of
it, recurse. -/
def keepFirsts : List String → List String
  | [] => []
  | x :: xs => x :: keepFirsts (xs.filter (fun y => y ≠ x))
termination_by l => l.length
decreasing_by
  simp only [List.length_cons]
  exact Nat.lt_succ_of_le (xs.length_filter_le _)

/-! ## Concrete fixtures used by witnesses and counterexamples -/

/-- A `parse_vless` delegate that always fails (the VLESS decoder is never
reached by the inputs below). -/
def stubVless : String → Except String (Unit × List String) := fun _ => .error "stub"

/-- A `parse_vmess` delegate that succeeds with a unit config. -/
def stubVmess : String → Except String (Unit × List String) := fun _ => .ok ((), [])

/-- A plugin table whose `performance` probe succeeds and every other kind
fails. -/
def stubRunSingle : String → PluginContext Unit → PluginResult :=
  fun k _ => { ok := k = KIND_PERFORMANCE, kind := k, metrics := [],
               warnings := [], error := none }

/-- The five registered kinds in `available_kinds()` order (sorted). -/
def fiveKinds : List String :=
  [KIND_COMPLIANCE, KIND_PERFORMANCE, KIND_SECURITY_ADV, KIND_SECURITY_BASIC,
   KIND_STABILITY]

/-- The all-zero UUID in its normalised 32-hex-digit representation. -/
def zeroUuidHex : String := "00000000000000000000000000000000"

/-- A concrete fully valid payload (zero UUID, one `performance` test). -/
def onePerfPayload : Payload :=
  { task_id := some "00000000-0000-0000-0000-000000000000",
    user_telegram_id := some 1, username := none, config_raw := some "vmess://x",
    tests := some [KIND_PERFORMANCE], consent_required := some false,
    consent_granted := some false }

/-- The validated `TaskRequest` corresponding to `onePerfPayload`. -/
def onePerfRequest : TaskRequest :=
  { task_id := zeroUuidHex, user_telegram_id := 1, username := none,
    config_raw := "vmess://x", tests := [KIND_PERFORMANCE],
    consent_required := false, consent_granted := false }

/-! ## Theorems -/

/-- C2: the claim (and the spec, and `run_cmd`'s own line 88) expect a timed
out invocation to return `CmdResult(exit_code=137, stdout=b"", stderr=
b"timeout", timeout=True)` without raising; but `common.py` never imports
`contextlib`, so the `contextlib.suppress(ProcessLookupError)` on line 86
raises `NameError` before line 88 can run: the timeout path raises instead
of returning.  The last four conjuncts record the intended (unreachable)
result value of line 88 that the claim describes. -/
theorem run_cmd_timeout_raises_nameerror :
    runCmd defaultSettings .timesOut none none
        = .error (.nameError "name \x27contextlib\x27 is not defined")
      ∧ timeoutCmdResult.exit_code = 137
      ∧ timeoutCmdResult.stdout = []
      ∧ timeoutCmdResult.stderr = asciiBytes "timeout"
      ∧ timeoutCmdResult.timeout = true :=
  ⟨rfl, rfl, rfl, rfl, rfl⟩

/-- C8: when the child completes within the timeout, `run_cmd` returns
`timeout=false` and the child's real exit code, with stdout and stderr each
independently truncated to `max_output_bytes` — streams at or under the cap
come back unmodified, streams over it come back with exactly
`max_output_bytes` bytes. -/
theorem run_cmd_output_cap (st : Settings) (stdout stderr : List Nat)
    (rc : Int) (tOpt mOpt : Option Nat) (m : Nat)
    (hm : mOpt.getD st.DEFAULT_SUBPROCESS_MAX_OUTPUT_BYTES = m) :
    ∃ r, runCmd st (.completes stdout stderr rc) tOpt mOpt = .ok r
      ∧ r.timeout = false ∧ r.exit_code = rc
      ∧ r.stdout = stdout.take m ∧ r.stderr = stderr.take m
      ∧ (stdout.length ≤ m → r.stdout = stdout)
      ∧ (m < stdout.length → r.stdout.length = m)
      ∧ (stderr.length ≤ m → r.stderr = stderr)
      ∧ (m < stderr.length → r.stderr.length = m) := by
  subst hm
  refine ⟨_, rfl, rfl, rfl, ?_, ?_, ?_, ?_, ?_, ?_⟩ <;>
    simp only [runCmd]
  · split
    · rfl
    · rename_i h
      exact (List.take_of_length_le (Nat.le_of_not_lt h)).symm
  · split
    · rfl
    · rename_i h
      exact (List.take_of_length_le (Nat.le_of_not_lt h)).symm
  · intro h
    rw [if_neg (by omega)]
  · intro h
    rw [if_pos (by omega)]
    simp [List.length_take]
    omega
  · intro h
    rw [if_neg (by omega)]
  · intro h
    rw [if_pos (by omega)]
    simp [List.length_take]
    omega

/-- Witness for C8: a 5-byte stdout against a 3-byte cap is cut to exactly
3 bytes while a 2-byte stderr passes through unmodified. -/
theorem run_cmd_output_cap_witness :
    (some 3).getD defaultSettings.DEFAULT_SUBPROCESS_MAX_OUTPUT_BYTES = 3
      ∧ ∃ r, runCmd defaultSettings (.completes [1, 2, 3, 4, 5] [9, 9] 7) none (some 3) = .ok r
        ∧ r.timeout = false ∧ r.exit_code = 7
        ∧ r.stdout = [1, 2, 3, 4, 5].take 3 ∧ r.stderr = [9, 9].take 3
        ∧ ([1, 2, 3, 4, 5].length ≤ 3 → r.stdout = [1, 2, 3, 4, 5])
        ∧ (3 < [1, 2, 3, 4, 5].length → r.stdout.length = 3)
        ∧ ([9, 9].length ≤ 3 → r.stderr = [9, 9])
        ∧ (3 < [9, 9].length → r.stderr.length = 3) :=
  ⟨rfl, run_cmd_output_cap defaultSettings [1, 2, 3, 4, 5] [9, 9] 7 none (some 3) 3 rfl⟩

/-- Helper: the last element of a list reported by `getLast?` satisfies any
predicate that all elements satisfy. -/
theorem all_of_getLastQ {p : Char → Bool} :
    ∀ {l : List Char} {c : Char}, l.all p = true → l.getLast? = some c → p c = true := by
  intro l
  induction l with
  | nil => intro c _ h; cases h
  | cons x xs ih =>
    intro c hall hlast
    cases xs with
    | nil =>
      simp only [List.getLast?_singleton, Option.some.injEq] at hlast
      subst hlast
      simpa using hall
    | cons y ys =>
      rw [List.getLast?_cons_cons] at hlast
      exact ih (by simp at hall ⊢; exact hall.2) hlast

/-- C9: a host string made solely of hexadecimal digits and colons, with an
optional leading `[` and optional trailing `]` — including colon-free plain
words such as "cafe" — matches the permissive `_IPV6_RE` pattern, so
`_validate_hostname` returns it (stripped) unchanged for *every* behaviour
of the IDNA codec: the IDNA check is bypassed entirely. -/
theorem hostname_hexcolon_bypasses_idna (idnaEncode : String → Option String)
    (s : String) (core : List Char) (hne : core ≠ [])
    (hall : core.all isIpv6Char = true)
    (hshape : (pyStrip s).data = core ∨ (pyStrip s).data = '[' :: core
      ∨ (pyStrip s).data = core ++ [']']
      ∨ (pyStrip s).data = '[' :: (core ++ [']'])) :
    ipv6Re (pyStrip s) = true
      ∧ validate_hostname idnaEncode s = .ok (pyStrip s) := by
  obtain ⟨c, cs, rfl⟩ : ∃ c cs, core = c :: cs := by
    cases core with
    | nil => exact absurd rfl hne
    | cons c cs => exact ⟨c, cs, rfl⟩
  have hhd : ¬ ((c :: cs).head? = some '[') := by
    intro h
    simp only [List.head?_cons, Option.some.injEq] at h
    subst h
    have : isIpv6Char '[' = true := by
      have := List.all_eq_true.mp hall '[' (List.mem_cons_self _ _)
      simpa using this
    exact absurd this (by decide)
  have hlast : ¬ ((c :: cs).getLast? = some ']') := by
    intro h
    exact absurd (all_of_getLastQ hall h) (by decide)
  have hcne : c ≠ '[' := by
    intro hEq
    exact hhd (by rw [hEq]; simp)
  have hl2 : ((c :: cs) ++ [']']).getLast? = some ']' := List.getLast?_concat _
  have hd2 : ((c :: cs) ++ [']']).dropLast = c :: cs := List.dropLast_concat
  have hhd2 : ¬ (((c :: cs) ++ [']']).head? = some '[') := by
    simp only [List.cons_append, List.head?_cons, Option.some.injEq]
    exact hcne
  have hfin : (!(c :: cs).isEmpty && (c :: cs).all isIpv6Char) = true := by
    simpa using hall
  have h6 : ipv6Re (pyStrip s) = true := by
    unfold ipv6Re
    dsimp only
    rcases hshape with h | h | h | h <;> rw [h]
    · rw [if_neg hhd, if_neg hlast]
      exact hfin
    · rw [if_pos (show ('[' :: c :: cs).head? = some '[' by simp),
        List.tail_cons, if_neg hlast]
      exact hfin
    · rw [if_neg hhd2, if_pos hl2, hd2]
      exact hfin
    · rw [if_pos (show ('[' :: ((c :: cs) ++ [']'])).head? = some '[' by simp),
        List.tail_cons, if_pos hl2, hd2]
      exact hfin
  refine ⟨h6, ?_⟩
  unfold validate_hostname
  rw [if_pos (by rw [h6, Bool.or_true])]

/-- Witness for C9: `"cafe"` — hex digits only, no colon, no brackets — is
accepted by `_validate_hostname` and returned unchanged, for an IDNA codec
that rejects everything. -/
theorem hostname_hexcolon_bypasses_idna_witness :
    (['c', 'a', 'f', 'e'].all isIpv6Char = true)
      ∧ ipv6Re (pyStrip "cafe") = true
      ∧ validate_hostname (fun _ => none) "cafe" = .ok (pyStrip "cafe") :=
  ⟨by decide,
   (hostname_hexcolon_bypasses_idna (fun _ => none) "cafe" ['c', 'a', 'f', 'e']
     (by decide) (by decide) (Or.inl (by decide))).1,
   (hostname_hexcolon_bypasses_idna (fun _ => none) "cafe" ['c', 'a', 'f', 'e']
     (by decide) (by decide) (Or.inl (by decide))).2⟩

/-- Helper: the accumulator-passing loop of `dedupFromKeys` computes
`keepFirsts` of the not-yet-seen elements. -/
theorem dedupGo_keepFirsts : ∀ (l seen : List String),
    dedupFromKeys.go seen l = keepFirsts (l.filter (fun x => !seen.contains x)) := by
  intro l
  induction l with
  | nil => intro seen; simp only [dedupFromKeys.go, List.filter_nil, keepFirsts]
  | cons x xs ih =>
    intro seen
    simp only [dedupFromKeys.go, List.filter_cons]
    by_cases hx : seen.contains x
    · rw [if_pos hx, ih, hx]
      simp only [Bool.not_true, Bool.false_eq_true, if_false]
    · rw [if_neg hx, ih]
      rw [show (!seen.contains x) = true from by
        rw [Bool.eq_false_iff.mpr hx]; rfl]
      simp only [if_true]
      rw [keepFirsts]
      congr 1
      rw [List.filter_filter]
      congr 1
      apply List.filter_congr
      intro y _
      by_cases hyx : y = x <;> by_cases hys : seen.contains y <;>
        simp [hyx, hys] at hx ⊢

/-- C7: the dedup step `list(dict.fromkeys(tests))` keeps exactly the first
occurrence of each kind in its original relative order (`keepFirsts` is that
specification written as a recursion: keep the head, drop its later
duplicates); and in particular
`["performance","stability","performance"]` produces the same consent-gate
output and the same surviving-kind list as `["performance","stability"]`
for every toggle/consent combination and every registry content. -/
theorem dedup_first_occurrence_law :
    (∀ l : List String, dedupFromKeys l = keepFirsts l)
      ∧ (∀ (enableAdv cr cg : Bool) (avail : List String),
          consentGate enableAdv cr cg
              (dedupFromKeys [KIND_PERFORMANCE, KIND_STABILITY, KIND_PERFORMANCE])
            = consentGate enableAdv cr cg
                (dedupFromKeys [KIND_PERFORMANCE, KIND_STABILITY])
          ∧ (filterUnknown avail (consentGate enableAdv cr cg
                (dedupFromKeys [KIND_PERFORMANCE, KIND_STABILITY, KIND_PERFORMANCE])).1).1
            = (filterUnknown avail (consentGate enableAdv cr cg
                (dedupFromKeys [KIND_PERFORMANCE, KIND_STABILITY])).1).1) := by
  constructor
  · intro l
    have h := dedupGo_keepFirsts l []
    simpa [dedupFromKeys] using h
  · intro enableAdv cr cg avail
    have hd : dedupFromKeys [KIND_PERFORMANCE, KIND_STABILITY, KIND_PERFORMANCE]
        = dedupFromKeys [KIND_PERFORMANCE, KIND_STABILITY] := by decide
    rw [hd]
    exact ⟨rfl, rfl⟩

/-- Helper: the two components of the consent gate, characterised as
filters over the requested list. -/
theorem consentGate_chars (enableAdv cr cg : Bool) (l : List String) :
    (consentGate enableAdv cr cg l).1
      = l.filter (fun k => !(k == KIND_SECURITY_ADV && (!enableAdv || !(cr && cg))))
    ∧ (consentGate enableAdv cr cg l).2
      = (l.filter (fun k =>
          k == KIND_SECURITY_ADV && (!enableAdv || !(cr && cg)))).map
          (fun _ => consentSkipMsg) := by
  induction l with
  | nil => exact ⟨rfl, rfl⟩
  | cons k rest ih =>
    simp only [consentGate, List.filter_cons]
    by_cases hb : (k == KIND_SECURITY_ADV && (!enableAdv || !(cr && cg))) = true
    · rw [if_pos hb, hb]
      simp only [Bool.not_true, Bool.false_eq_true, if_false, if_true]
      exact ⟨ih.1, by rw [List.map_cons, ih.2]⟩
    · rw [if_neg hb, Bool.eq_false_iff.mpr hb]
      simp only [Bool.not_false, Bool.false_eq_true, if_false, if_true]
      exact ⟨by rw [ih.1], ih.2⟩

/-- C3: `security_adv` is removed from the effective list — with the skip
warning appended — unless the global toggle is on and both consent booleans
are true (conjuncts 1–2 characterise both gate outputs exactly); in
particular with `consent_granted=false` it is always dropped whatever
`consent_required` is, and with the toggle off it is dropped even when both
consent flags are true (conjuncts 3–5); every kind other than
`security_adv` passes the gate unconditionally (conjunct 6). -/
theorem consent_gate_spec (enableAdv cr cg : Bool) (requested : List String) :
    (consentGate enableAdv cr cg requested).1
      = requested.filter (fun k =>
          !(k == KIND_SECURITY_ADV && (!enableAdv || !(cr && cg))))
    ∧ (consentGate enableAdv cr cg requested).2
      = (requested.filter (fun k =>
          k == KIND_SECURITY_ADV && (!enableAdv || !(cr && cg)))).map
          (fun _ => consentSkipMsg)
    ∧ (cg = false → KIND_SECURITY_ADV ∉ (consentGate enableAdv cr cg requested).1)
    ∧ (enableAdv = false →
        KIND_SECURITY_ADV ∉ (consentGate enableAdv cr cg requested).1)
    ∧ (KIND_SECURITY_ADV ∈ requested → (enableAdv && (cr && cg)) = false →
        consentSkipMsg ∈ (consentGate enableAdv cr cg requested).2)
    ∧ (∀ k, k ≠ KIND_SECURITY_ADV →
        (k ∈ (consentGate enableAdv cr cg requested).1 ↔ k ∈ requested)) := by
  obtain ⟨h1, h2⟩ := consentGate_chars enableAdv cr cg requested
  refine ⟨h1, h2, ?_, ?_, ?_, ?_⟩
  · intro hcg
    subst hcg
    rw [h1]
    intro hmem
    simp at hmem
  · intro he
    subst he
    rw [h1]
    intro hmem
    simp at hmem
  · intro hreq hfalse
    rw [h2]
    refine List.mem_map.mpr ⟨KIND_SECURITY_ADV, List.mem_filter.mpr ⟨hreq, ?_⟩, rfl⟩
    simp only [beq_self_eq_true, Bool.true_and]
    cases enableAdv <;> cases cr <;> cases cg <;> simp_all
  · intro k hk
    rw [h1]
    constructor
    · intro hmem
      exact (List.mem_filter.mp hmem).1
    · intro hmem
      refine List.mem_filter.mpr ⟨hmem, ?_⟩
      simp [hk]

/-- Witness for C3: with the toggle off and both consent flags granted, a
request of `[security_adv, performance]` keeps only `performance` and
appends the skip warning. -/
theorem consent_gate_spec_witness :
    KIND_SECURITY_ADV ∉ (consentGate false true true
        [KIND_SECURITY_ADV, KIND_PERFORMANCE]).1
    ∧ (KIND_PERFORMANCE ∈ (consentGate false true true
          [KIND_SECURITY_ADV, KIND_PERFORMANCE]).1
        ↔ KIND_PERFORMANCE ∈ [KIND_SECURITY_ADV, KIND_PERFORMANCE]) :=
  ⟨(consent_gate_spec false true true [KIND_SECURITY_ADV, KIND_PERFORMANCE]).2.2.2.1 rfl,
   (consent_gate_spec false true true
      [KIND_SECURITY_ADV, KIND_PERFORMANCE]).2.2.2.2.2 KIND_PERFORMANCE (by decide)⟩

/-- C10: a payload that carries no `task_id` key and fails `TaskRequest`
validation (which it necessarily does, `task_id` being required) gets a
response whose `task_id` is the all-zero UUID — the default that
`payload.get("task_id", "00000000-0000-0000-0000-000000000000")` supplies —
with `ok=false`, empty `results`, and a single validation error. -/
theorem validation_default_zero_uuid (Cfg : Type)
    (parseVless parseVmess : String → Except String (Cfg × List String))
    (runSingle : String → PluginContext Cfg → PluginResult)
    (avail : List String) (settings : Settings) (payload : Payload)
    (h : payload.task_id = none) :
    ∃ msg, execute_request_async Cfg parseVless parseVmess runSingle avail
        settings payload
      = .ok { task_id := zeroUuidHex, ok := false, results := [], warnings := [],
              errors := ["validation error: " ++ msg] } := by
  refine ⟨"task_id: Field required", ?_⟩
  unfold execute_request_async validateTaskRequest
  rw [h]
  rfl

/-- Witness for C10: a concrete payload with no `task_id` key. -/
theorem validation_default_zero_uuid_witness :
    (Payload.mk none (some 7) none (some "vmess://x") (some ["performance"])
        none none).task_id = none
    ∧ ∃ msg, execute_request_async Unit stubVless stubVmess stubRunSingle
          fiveKinds defaultSettings
          (Payload.mk none (some 7) none (some "vmess://x") (some ["performance"])
            none none)
        = .ok { task_id := zeroUuidHex, ok := false, results := [], warnings := [],
                errors := ["validation error: " ++ msg] } :=
  ⟨rfl, validation_default_zero_uuid Unit stubVless stubVmess stubRunSingle
    fiveKinds defaultSettings _ rfl⟩

/-- C1 counterexample: with a payload whose `task_id` is the (non-UUID)
string "xyz", `TaskRequest` validation fails, and the `ValidationError`
handler's own `uuid.UUID(payload.get("task_id", …))` call raises
`ValueError` — so `execute_request_async` propagates an exception instead of
returning a `TaskResponse`, refuting "never raises" as universally
stated. -/
theorem execute_raises_on_invalid_taskid :
    execute_request_async Unit stubVless stubVmess stubRunSingle fiveKinds
        defaultSettings
        { task_id := some "xyz", user_telegram_id := none, username := none,
          config_raw := none, tests := none, consent_required := none,
          consent_granted := none }
      = .error (.valueError "badly formed hexadecimal UUID string") := by
  rfl

/-- C1 (amended): `execute_request_async` returns a `TaskResponse` and never
raises for every payload whose `task_id`, when present, is a valid UUID
string — every failure path is then encoded in the returned response.  (The
lone raising path, a failed validation whose payload `task_id` is present
but not a valid UUID, is the counterexample above.) -/
theorem execute_never_raises_of_taskid_wf (Cfg : Type)
    (parseVless parseVmess : String → Except String (Cfg × List String))
    (runSingle : String → PluginContext Cfg → PluginResult)
    (avail : List String) (settings : Settings) (payload : Payload)
    (h : ∀ s, payload.task_id = some s → (uuidParse s).isSome = true) :
    ∃ resp, execute_request_async Cfg parseVless parseVmess runSingle avail
        settings payload = .ok resp := by
  unfold execute_request_async
  split
  · split
    · rename_i hu
      exfalso
      cases ht : payload.task_id with
      | none =>
        rw [ht] at hu
        exact absurd hu (by decide)
      | some s =>
        rw [ht] at hu
        simp only [Option.getD_some] at hu
        have hs := h s ht
        rw [hu] at hs
        simp at hs
    · exact ⟨_, rfl⟩
  · split
    · exact ⟨_, rfl⟩
    · exact ⟨_, (apply_ite Except.ok _ _ _).symm⟩

/-- Witness for C1: a fully valid payload, on which the orchestrator
returns a response. -/
theorem execute_never_raises_witness :
    (∀ s, (Payload.mk (some "00000000-0000-0000-0000-000000000000") (some 1)
        none (some "vmess://x") (some [KIND_PERFORMANCE]) none none).task_id
          = some s → (uuidParse s).isSome = true)
    ∧ ∃ resp, execute_request_async Unit stubVless stubVmess stubRunSingle
          fiveKinds defaultSettings
          (Payload.mk (some "00000000-0000-0000-0000-000000000000") (some 1)
            none (some "vmess://x") (some [KIND_PERFORMANCE]) none none)
        = .ok resp :=
  ⟨fun s hs => by injection hs with h2; subst h2; decide,
   execute_never_raises_of_taskid_wf Unit stubVless stubVmess stubRunSingle
    fiveKinds defaultSettings _
    (fun s hs => by injection hs with h2; subst h2; decide)⟩

/-- C4 counterexample: `TaskRequest` places no sign constraint on
`user_telegram_id`, so a payload with `user_telegram_id = -5` *passes*
validation, and the orchestrator proceeds to config parsing — here an empty
`config_raw`, so the response carries a config-parse error, not a
validation error.  This refutes the claim that a non-positive
`user_telegram_id` yields a validation-failure response with no config
parsing. -/
theorem negative_user_id_passes_validation :
    (∃ req, validateTaskRequest
        { task_id := some "00000000-0000-0000-0000-000000000000",
          user_telegram_id := some (-5), username := none, config_raw := some "",
          tests := some [KIND_PERFORMANCE], consent_required := some false,
          consent_granted := some false } = .ok req ∧ req.user_telegram_id = -5)
    ∧ execute_request_async Unit stubVless stubVmess stubRunSingle fiveKinds
        defaultSettings
        { task_id := some "00000000-0000-0000-0000-000000000000",
          user_telegram_id := some (-5), username := none, config_raw := some "",
          tests := some [KIND_PERFORMANCE], consent_required := some false,
          consent_granted := some false }
      = .ok { task_id := zeroUuidHex, ok := false, results := [], warnings := [],
              errors := ["config parse error: empty config"] } :=
  ⟨⟨_, rfl, rfl⟩, rfl⟩

/-- C4 (amended): an empty `tests` list always fails `TaskRequest`
validation (first conjunct), and every payload failing validation — whose
`task_id`, when present, is a valid UUID string, lest the handler itself
raise — gets `ok=false`, empty `results`, and the single fatal validation
error; the response is the same for every parser delegate and plugin table,
so no config parsing or plugin execution influences it (second conjunct).
`user_telegram_id`, however, carries no sign constraint in the source:
non-positive ids pass validation (see the counterexample). -/
theorem validation_failure_response :
    (∀ p : Payload, p.tests = some [] → ∃ m, validateTaskRequest p = .error m)
    ∧ (∀ (Cfg : Type) (parseVless parseVmess : String → Except String (Cfg × List String))
        (runSingle : String → PluginContext Cfg → PluginResult)
        (avail : List String) (settings : Settings) (p : Payload) (msg : String),
        validateTaskRequest p = .error msg →
        (∀ s, p.task_id = some s → (uuidParse s).isSome = true) →
        ∃ tid, execute_request_async Cfg parseVless parseVmess runSingle avail
            settings p
          = .ok { task_id := tid, ok := false, results := [], warnings := [],
                  errors := ["validation error: " ++ msg] }) := by
  constructor
  · intro p hp
    unfold validateTaskRequest
    split
    · exact ⟨_, rfl⟩
    · split
      · exact ⟨_, rfl⟩
      · split
        · exact ⟨_, rfl⟩
        · split
          · exact ⟨_, rfl⟩
          · split
            · exact ⟨_, rfl⟩
            · rename_i ts hts
              rw [hp] at hts
              injection hts with h2
              subst h2
              exact ⟨_, rfl⟩
  · intro Cfg parseVless parseVmess runSingle avail settings p msg hval hwf
    unfold execute_request_async
    rw [hval]
    cases ht : p.task_id with
    | none => exact ⟨_, rfl⟩
    | some s =>
      obtain ⟨u, hu⟩ := Option.isSome_iff_exists.mp (hwf s ht)
      simp only [Option.getD_some, hu]
      exact ⟨_, rfl⟩

/-- Witness for C4: a payload with valid `task_id` but empty `tests`. -/
theorem validation_failure_response_witness :
    (Payload.mk (some "00000000-0000-0000-0000-000000000000") (some 1) none
        (some "vmess://x") (some []) none none).tests = some []
    ∧ (∃ m, validateTaskRequest
        (Payload.mk (some "00000000-0000-0000-0000-000000000000") (some 1) none
          (some "vmess://x") (some []) none none) = .error m)
    ∧ (∃ tid, execute_request_async Unit stubVless stubVmess stubRunSingle
          fiveKinds defaultSettings
          (Payload.mk (some "00000000-0000-0000-0000-000000000000") (some 1) none
            (some "vmess://x") (some []) none none)
        = .ok { task_id := tid, ok := false, results := [], warnings := [],
                errors := ["validation error: "
                  ++ "tests: List should have at least 1 item"] }) :=
  ⟨rfl,
   validation_failure_response.1 _ rfl,
   validation_failure_response.2 Unit stubVless stubVmess stubRunSingle fiveKinds
     defaultSettings _ "tests: List should have at least 1 item" rfl
     (fun s hs => by injection hs with h2; subst h2; decide)⟩

/-- Helper: the aggregation fold, run from an arbitrary accumulator. -/
theorem aggregate_foldl (pairs : List (String × PluginResult)) :
    ∀ (acc : List (String × ResultEntry)) (b : Bool),
      pairs.foldl
        (fun acc kr => (acc.1 ++ [(kr.1, toResultEntry kr.2)], acc.2 || kr.2.ok))
        (acc, b)
      = (acc ++ pairs.map (fun kr => (kr.1, toResultEntry kr.2)),
          b || pairs.any (fun kr => kr.2.ok)) := by
  induction pairs with
  | nil => intro acc b; simp
  | cons kr rest ih =>
    intro acc b
    simp only [List.foldl_cons, List.map_cons, List.any_cons]
    rw [ih]
    simp [List.append_assoc, Bool.or_assoc]

/-- Helper: the aggregation loop produces the entry list in input order and
the OR of the per-kind flags. -/
theorem aggregate_spec (pairs : List (String × PluginResult)) :
    aggregate pairs
      = (pairs.map (fun kr => (kr.1, toResultEntry kr.2)),
          pairs.any (fun kr => kr.2.ok)) := by
  unfold aggregate
  rw [aggregate_foldl]
  simp

/-- C5: for a task that reaches plugin execution (surviving kind list
`effective` non-empty), the response's `ok` is the OR (`List.any`) of the
per-kind success flags, `results` is exactly the surviving kinds — in
order — each mapped to the `{ok, metrics, warnings, error}` entry of its
plugin outcome, and the task-level `errors` list is empty. -/
theorem execute_aggregation_spec (Cfg : Type)
    (parseVless parseVmess : String → Except String (Cfg × List String))
    (runSingle : String → PluginContext Cfg → PluginResult)
    (avail : List String) (settings : Settings) (payload : Payload)
    (req : TaskRequest) (hval : validateTaskRequest payload = .ok req)
    (cfg : Cfg) (pw : List String)
    (hparse : parse_config Cfg parseVless parseVmess req.config_raw = .ok (cfg, pw))
    (gated gw effective uw : List String)
    (hgate : consentGate settings.ENABLE_SECURITY_ADVANCED req.consent_required
        req.consent_granted (dedupFromKeys req.tests) = (gated, gw))
    (hunk : filterUnknown avail gated = (effective, uw))
    (hne : effective ≠ []) :
    execute_request_async Cfg parseVless parseVmess runSingle avail settings
        payload
      = .ok { task_id := req.task_id,
              ok := effective.any (fun k =>
                (runSingle k (taskContext Cfg settings req cfg)).ok),
              results := effective.map (fun k =>
                (k, toResultEntry (runSingle k (taskContext Cfg settings req cfg)))),
              warnings := pw ++ gw ++ uw,
              errors := [] } := by
  have hempty : effective.isEmpty = false := by
    cases effective with
    | nil => exact absurd rfl hne
    | cons k ks => rfl
  unfold execute_request_async
  simp only [hval]
  simp only [hparse]
  simp only [hgate, hunk, hempty]
  simp only [Bool.false_eq_true, if_false]
  rw [aggregate_spec]
  have hany : ∀ (l : List String),
      (List.map (fun k => (k, runSingle k (taskContext Cfg settings req cfg))) l).any
          (fun kr => kr.2.ok)
        = l.any (fun k => (runSingle k (taskContext Cfg settings req cfg)).ok) := by
    intro l
    induction l with
    | nil => rfl
    | cons x xs ih => simp only [List.map_cons, List.any_cons, ih]
  rw [hany, List.map_map]
  rfl

/-- Witness for C5: one surviving `performance` kind whose plugin succeeds;
the response carries `ok=true`, that single result entry, and no errors. -/
theorem execute_aggregation_spec_witness :
    validateTaskRequest onePerfPayload = .ok onePerfRequest
    ∧ execute_request_async Unit stubVless stubVmess stubRunSingle fiveKinds
        defaultSettings onePerfPayload
      = .ok { task_id := onePerfRequest.task_id,
              ok := [KIND_PERFORMANCE].any (fun k =>
                (stubRunSingle k
                  (taskContext Unit defaultSettings onePerfRequest ())).ok),
              results := [KIND_PERFORMANCE].map (fun k =>
                (k, toResultEntry (stubRunSingle k
                  (taskContext Unit defaultSettings onePerfRequest ())))),
              warnings := [] ++ [] ++ [],
              errors := [] } :=
  ⟨rfl,
   execute_aggregation_spec Unit stubVless stubVmess stubRunSingle fiveKinds
    defaultSettings onePerfPayload onePerfRequest rfl () [] rfl
    [KIND_PERFORMANCE] [] [KIND_PERFORMANCE] [] rfl rfl (by decide)⟩

/-- C6 counterexample: a decoded VMESS object with valid `id`, `host` and
`port` and a non-empty, non-numeric `aid` (`"x"`) on which `parse_vmess`
nevertheless *raises*: its `net` field is the (truthy, non-string) number
`5`, so `(data.get("net") or "").strip()` raises `AttributeError` — the
claim's success guarantee does not hold for every such payload.  The first
conjuncts check the claim's hypotheses on this input; the last shows the
raised error. -/
theorem parse_vmess_raises_on_int_net :
    (uuidParse (pyStrip (pyStr ((jGet
        [("id", JValue.str "00000000-0000-0000-0000-000000000000"),
         ("add", JValue.str "1.2.3.4"), ("port", JValue.int 443),
         ("aid", JValue.str "x"), ("net", JValue.int 5)] "id").getD
        (.str "")))) ).isSome = true
    ∧ validate_hostname (fun _ => none) (pyStrip (pyStr ((jGet
        [("id", JValue.str "00000000-0000-0000-0000-000000000000"),
         ("add", JValue.str "1.2.3.4"), ("port", JValue.int 443),
         ("aid", JValue.str "x"), ("net", JValue.int 5)] "add").getD
        (.str "")))) = .ok "1.2.3.4"
    ∧ validate_port ((jGet
        [("id", JValue.str "00000000-0000-0000-0000-000000000000"),
         ("add", JValue.str "1.2.3.4"), ("port", JValue.int 443),
         ("aid", JValue.str "x"), ("net", JValue.int 5)] "port").getD
        (.int 0)) = .ok 443
    ∧ pyStrip (pyStr (JValue.str "x")) ≠ ""
    ∧ pyIntOfString (pyStrip (pyStr (JValue.str "x"))) = none
    ∧ parse_vmess_decoded (fun _ => none)
        (.obj [("id", JValue.str "00000000-0000-0000-0000-000000000000"),
               ("add", JValue.str "1.2.3.4"), ("port", JValue.int 443),
               ("aid", JValue.str "x"), ("net", JValue.int 5)])
      = .error ("\x27int\x27 object has no attribute \x27strip\x27") :=
  ⟨rfl, rfl, rfl, by decide, rfl, rfl⟩

/-- C6 (amended): for a decoded VMESS object with valid `id`, `host` and
`port`, a present `aid` whose string form is non-empty and non-numeric, and
whose seven optional string fields do not themselves raise (i.e. each is
absent, falsy, or a string — see the counterexample for a raising `net`),
`parse_vmess` succeeds, the descriptor's `aid` is `None`, and the warning
list contains the "aid is not numeric; ignored" warning. -/
theorem vmess_aid_warning_spec (idnaEncode : String → Option String)
    (kvs : List (String × JValue)) (uid host : String) (port : Int)
    (hid : uuidParse (pyStrip (pyStr ((jGet kvs "id").getD (.str ""))))
      = some uid)
    (hhost : validate_hostname idnaEncode
        (pyStrip (pyStr ((jGet kvs "add").getD (.str "")))) = .ok host)
    (hport : validate_port ((jGet kvs "port").getD (.int 0)) = .ok port)
    (av : JValue) (haid : jGet kvs "aid" = some av)
    (hne : pyStrip (pyStr av) ≠ "")
    (hnum : pyIntOfString (pyStrip (pyStr av)) = none)
    (netv tyv tlsv sniv hhv pathv psv : Option String)
    (hnet : strFieldRes kvs "net" = .ok netv)
    (hty : strFieldRes kvs "type" = .ok tyv)
    (htls : strFieldRes kvs "tls" = .ok tlsv)
    (hsni : strFieldRes kvs "sni" = .ok sniv)
    (hhh : strFieldRes kvs "host" = .ok hhv)
    (hpath : strFieldRes kvs "path" = .ok pathv)
    (hps : strFieldRes kvs "ps" = .ok psv) :
    ∃ r, parse_vmess_decoded idnaEncode (.obj kvs) = .ok r
      ∧ r.config.aid = none
      ∧ "vmess \x27aid\x27 is not numeric; ignored." ∈ r.warnings := by
  have haidp : aidField kvs = (none, ["vmess \x27aid\x27 is not numeric; ignored."]) := by
    unfold aidField
    simp only [haid]
    rw [if_neg hne, hnum]
  unfold parse_vmess_decoded
  simp only [hid, hhost, hport, haidp, hnet, hty, htls, hsni, hhh, hpath, hps]
  refine ⟨_, rfl, rfl, ?_⟩
  exact List.mem_append_left _ (List.mem_append_left _ (List.mem_singleton_self _))

/-- Witness for C6: the counterexample object without its `net` field —
`parse_vmess` succeeds, omits `aid`, and warns. -/
theorem vmess_aid_warning_spec_witness :
    jGet [("id", JValue.str "00000000-0000-0000-0000-000000000000"),
          ("add", JValue.str "1.2.3.4"), ("port", JValue.int 443),
          ("aid", JValue.str "x")] "aid" = some (JValue.str "x")
    ∧ ∃ r, parse_vmess_decoded (fun _ => none)
          (.obj [("id", JValue.str "00000000-0000-0000-0000-000000000000"),
                 ("add", JValue.str "1.2.3.4"), ("port", JValue.int 443),
                 ("aid", JValue.str "x")])
        = .ok r
      ∧ r.config.aid = none
      ∧ "vmess \x27aid\x27 is not numeric; ignored." ∈ r.warnings :=
  ⟨rfl,
   vmess_aid_warning_spec (fun _ => none)
    [("id", JValue.str "00000000-0000-0000-0000-000000000000"),
     ("add", JValue.str "1.2.3.4"), ("port", JValue.int 443),
     ("aid", JValue.str "x")]
    "00000000000000000000000000000000" "1.2.3.4" 443 rfl rfl rfl
    (JValue.str "x") rfl (by decide) rfl
    none none none none none none none rfl rfl rfl rfl rfl rfl rfl⟩

end VProxySuite
